import Mathlib

/-!
Verification development for the repository lmiller1990/modules.

The only executable code in the repository is src/iife/foo.js:

  function getUrl () {
    return "/todos";
  }

  // `window.fetch` won't be standardized for decades
  function createTodo(title) {
    const req = new XMLHttpRequest();
    req.addEventListener("load", reqListener);
    req.open("POST", getUrl() + "?title=" + title);
    req.send();
  }

We embed this file twice, both translations of the source:

1. a syntactic embedding (an AST of the classic browser-script fragment the
   file is written in, with the file rendered as a term of that AST), used
   for claims about what the file declares and whether it is wrapped in an
   immediately invoked function expression (IIFE); and

2. a semantic embedding: each function as a state transformer over a world
   recording the externally visible XMLHttpRequest operations, with the
   surrounding global environment passed explicitly so that the resolution
   of the free identifier reqListener can be settled either way.
-/

/-- Expressions of the JavaScript fragment used by src/iife/foo.js: string
literals, identifier references, constructor calls with new, direct calls of
a named function, method calls on a named object, and the binary + operator
(string concatenation here). -/
inductive Expr where
  | str (s : String)
  | ident (name : String)
  | newObj (ctorName : String) (args : List Expr)
  | call (fname : String) (args : List Expr)
  | methodCall (objName : String) (methodName : String) (args : List Expr)
  | binaryPlus (l r : Expr)

/-- Statements that occur in a function body in the fragment: return,
const declarations, var declarations, and expression statements. The bodies
in src/iife/foo.js are flat sequences of these. -/
inductive Stmt where
  | ret (e : Expr)
  | constDecl (name : String) (e : Expr)
  | varDecl (name : String) (e : Expr)
  | exprStmt (e : Expr)

/-- Top-level items of a classic browser script: function declarations, var
declarations, and statements that immediately invoke a function expression,
of shape (function (params) { body })(args) — the IIFE pattern. -/
inductive TopLevel where
  | funDecl (name : String) (params : List String) (body : List Stmt)
  | varDecl (name : String) (e : Expr)
  | iifeStmt (params : List String) (body : List Stmt) (args : List Expr)

/-- AST of src/iife/foo.js, transcribed construct by construct from the
source file. -/
def fooJs : List TopLevel :=
  [ TopLevel.funDecl "getUrl" []
      [ Stmt.ret (Expr.str "/todos") ],
    TopLevel.funDecl "createTodo" ["title"]
      [ Stmt.constDecl "req" (Expr.newObj "XMLHttpRequest" []),
        Stmt.exprStmt (Expr.methodCall "req" "addEventListener"
          [Expr.str "load", Expr.ident "reqListener"]),
        Stmt.exprStmt (Expr.methodCall "req" "open"
          [Expr.str "POST",
           Expr.binaryPlus
             (Expr.binaryPlus (Expr.call "getUrl" []) (Expr.str "?title="))
             (Expr.ident "title")]),
        Stmt.exprStmt (Expr.methodCall "req" "send" []) ] ]

/-- Whether a top-level item is an IIFE statement. -/
def TopLevel.isIIFE : TopLevel → Bool
  | .iifeStmt _ _ _ => true
  | _ => false

/-- Whether a top-level item is a function declaration. -/
def TopLevel.isFunDecl : TopLevel → Bool
  | .funDecl _ _ _ => true
  | _ => false

/-- A script is wrapped in IIFEs when it is nonempty and every top-level
item is an IIFE statement, so no top-level binding is introduced. -/
def wrappedInIIFE (p : List TopLevel) : Bool :=
  !p.isEmpty && p.all TopLevel.isIIFE

/-- Names a top-level item binds in the global scope. Function and var
declarations bind their name; an IIFE statement binds nothing globally. -/
def TopLevel.globalBindings : TopLevel → List String
  | .funDecl n _ _ => [n]
  | .varDecl n _ => [n]
  | .iifeStmt _ _ _ => []

/-- Global top-level bindings a script introduces. -/
def topLevelBindings (p : List TopLevel) : List String :=
  p.flatMap TopLevel.globalBindings

/-- Names of the top-level function declarations of a script. -/
def topLevelFunctionNames (p : List TopLevel) : List String :=
  p.flatMap fun t => match t with
    | TopLevel.funDecl n _ _ => [n]
    | _ => []

/-- Names of the top-level var declarations of a script. -/
def topLevelVarNames (p : List TopLevel) : List String :=
  p.flatMap fun t => match t with
    | TopLevel.varDecl n _ => [n]
    | _ => []

/-- Names a statement defines (const and var declarations). -/
def Stmt.declaredNames : Stmt → List String
  | .constDecl n _ => [n]
  | .varDecl n _ => [n]
  | _ => []

/-- Every name a top-level item defines, global or local: the declared
name, the parameters, and the declarations inside the body. -/
def TopLevel.declaredNames : TopLevel → List String
  | .funDecl n ps body => n :: ps ++ body.flatMap Stmt.declaredNames
  | .varDecl n _ => [n]
  | .iifeStmt ps body _ => ps ++ body.flatMap Stmt.declaredNames

/-- Every name a script defines anywhere (top level or inside a body). -/
def definedNames (p : List TopLevel) : List String :=
  p.flatMap TopLevel.declaredNames

/-- Event names a statement listens to: the first argument of an
addEventListener method call, when it is a string literal. -/
def Stmt.listenedEvents : Stmt → List String
  | .exprStmt (Expr.methodCall _ "addEventListener" (Expr.str ev :: _)) => [ev]
  | _ => []

/-- Event names a top-level item listens to, collected over its body. -/
def TopLevel.listenedEvents : TopLevel → List String
  | .funDecl _ _ body => body.flatMap Stmt.listenedEvents
  | .iifeStmt _ body _ => body.flatMap Stmt.listenedEvents
  | _ => []

/-- Event names a script registers listeners for anywhere. -/
def allListenedEvents (p : List TopLevel) : List String :=
  p.flatMap TopLevel.listenedEvents

/-- Runtime errors relevant to src/iife/foo.js: evaluating an unbound
identifier raises a ReferenceError. -/
inductive JsError where
  | referenceError (name : String)
deriving DecidableEq, Repr

/-- Externally visible operations on XMLHttpRequest objects. Request
objects are identified by an allocation id. -/
inductive XhrOp where
  | newXhr (reqId : Nat)
  | addListener (reqId : Nat) (event : String)
  | openReq (reqId : Nat) (method : String) (url : String)
  | send (reqId : Nat)
deriving DecidableEq, Repr

/-- The world outside the two functions: an allocation counter for request
objects and the log of XMLHttpRequest operations issued so far. The program
itself keeps no variable that outlives a call, so no program variable is
part of the world. -/
structure World where
  nextId : Nat
  xhrLog : List XhrOp
deriving DecidableEq, Repr

/-- The surrounding global environment: the names other scripts (or the
browser) have bound, consulted when the program evaluates an identifier it
does not define itself. -/
abbrev Env := List String

/-- Embedding of function getUrl, whose body is a single return of the
string literal "/todos". -/
def getUrl : String := "/todos"

/-- A call of getUrl against the world: the body reads no state and writes
no state, so the call returns "/todos" and leaves the world untouched. -/
def getUrlCall (w : World) : String × World :=
  (getUrl, w)

/-- Embedding of function createTodo(title), statement by statement.
The call const req = new XMLHttpRequest() allocates a request object; then
req.addEventListener("load", reqListener) evaluates the free identifier
reqListener, which raises a ReferenceError when the surrounding environment
has no such binding — before any open or send; otherwise the listener is
registered for "load", the request is opened with method "POST" and url
getUrl() + "?title=" + title, and sent. -/
def createTodoCall (env : Env) (title : String) (w : World) : Option JsError × World :=
  let reqId := w.nextId
  let w1 : World := { nextId := w.nextId + 1, xhrLog := w.xhrLog ++ [XhrOp.newXhr reqId] }
  if env.contains "reqListener" then
    let w2 : World := { w1 with xhrLog := w1.xhrLog ++ [XhrOp.addListener reqId "load"] }
    let w3 : World := { w2 with
      xhrLog := w2.xhrLog ++ [XhrOp.openReq reqId "POST" (getUrl ++ "?title=" ++ title)] }
    let w4 : World := { w3 with xhrLog := w3.xhrLog ++ [XhrOp.send reqId] }
    (none, w4)
  else
    (some (JsError.referenceError "reqListener"), w1)

/-- Request objects allocated in a log. -/
def requestsCreated (log : List XhrOp) : List Nat :=
  log.flatMap fun op => match op with
    | XhrOp.newXhr i => [i]
    | _ => []

/-- Listener registrations in a log: request id and event name. -/
def listenersRegistered (log : List XhrOp) : List (Nat × String) :=
  log.flatMap fun op => match op with
    | XhrOp.addListener i ev => [(i, ev)]
    | _ => []

/-- Open operations in a log: method and url. -/
def opensIssued (log : List XhrOp) : List (String × String) :=
  log.flatMap fun op => match op with
    | XhrOp.openReq _ m u => [(m, u)]
    | _ => []

/-- Send operations in a log: the request ids sent. -/
def sendsIssued (log : List XhrOp) : List Nat :=
  log.flatMap fun op => match op with
    | XhrOp.send i => [i]
    | _ => []

/-- The world after a sequence of createTodo calls, one per title. -/
def runCreates (env : Env) (titles : List String) (w : World) : World :=
  titles.foldl (fun acc t => (createTodoCall env t acc).2) w

/-- Auxiliary: requestsCreated distributes over append. -/
theorem requestsCreated_append (l m : List XhrOp) :
    requestsCreated (l ++ m) = requestsCreated l ++ requestsCreated m := by
  simp [requestsCreated]

/-- Auxiliary: listenersRegistered distributes over append. -/
theorem listenersRegistered_append (l m : List XhrOp) :
    listenersRegistered (l ++ m) = listenersRegistered l ++ listenersRegistered m := by
  simp [listenersRegistered]

/-- Auxiliary: opensIssued distributes over append. -/
theorem opensIssued_append (l m : List XhrOp) :
    opensIssued (l ++ m) = opensIssued l ++ opensIssued m := by
  simp [opensIssued]

/-- Auxiliary: sendsIssued distributes over append. -/
theorem sendsIssued_append (l m : List XhrOp) :
    sendsIssued (l ++ m) = sendsIssued l ++ sendsIssued m := by
  simp [sendsIssued]

/-- C1, counterexample: src/iife/foo.js is not wrapped in an immediately
invoked function expression, and the names it introduces, getUrl and
createTodo, are global top-level bindings — contrary to the claim. -/
theorem c1_foo_not_iife_counterexample :
    wrappedInIIFE fooJs = false ∧
    "getUrl" ∈ topLevelBindings fooJs ∧
    "createTodo" ∈ topLevelBindings fooJs := by
  decide

/-- C1, amended: the snippet in src/iife/foo.js illustrates the pre-IIFE
global-script style from the module-history draft: every top-level item is
a plain function declaration, nothing is wrapped in an IIFE, and the names
it introduces, getUrl and createTodo, are global top-level bindings. -/
theorem c1_foo_is_pre_iife_global_script :
    fooJs.all TopLevel.isFunDecl = true ∧
    wrappedInIIFE fooJs = false ∧
    topLevelBindings fooJs = ["getUrl", "createTodo"] := by
  decide

/-- C2: the code consists of exactly two function declarations, named
getUrl and createTodo in that order; every top-level item is a function
declaration, and no top-level var declaration (no state) exists. -/
theorem c2_exactly_two_functions :
    topLevelFunctionNames fooJs = ["getUrl", "createTodo"] ∧
    (topLevelFunctionNames fooJs).length = 2 ∧
    fooJs.all TopLevel.isFunDecl = true ∧
    topLevelVarNames fooJs = [] := by
  decide

/-- C3: in any environment that does bind reqListener (so the call runs to
completion, the complementary case being C7), createTodo issues exactly one
request — one new XMLHttpRequest object, one send, and that send is on the
one object created — registers exactly one listener, for the "load" event,
completes without error, and syntactically the only event the whole script
ever listens to is "load". -/
theorem c3_createTodo_single_request_no_error_handling
    (env : Env) (title : String) (w : World)
    (h : env.contains "reqListener" = true) :
    (createTodoCall env title w).1 = none ∧
    requestsCreated (createTodoCall env title w).2.xhrLog
      = requestsCreated w.xhrLog ++ [w.nextId] ∧
    sendsIssued (createTodoCall env title w).2.xhrLog
      = sendsIssued w.xhrLog ++ [w.nextId] ∧
    listenersRegistered (createTodoCall env title w).2.xhrLog
      = listenersRegistered w.xhrLog ++ [(w.nextId, "load")] ∧
    allListenedEvents fooJs = ["load"] := by
  have hm : "reqListener" ∈ env := by simpa using h
  refine ⟨?_, ?_, ?_, ?_, by decide⟩ <;>
    simp [createTodoCall, hm, requestsCreated_append, sendsIssued_append,
      listenersRegistered_append, requestsCreated, sendsIssued, listenersRegistered]

/-- C3, witness: the theorem instantiated at a bound listener, the title
"milk", and the empty world. -/
theorem c3_witness :
    (["reqListener"] : Env).contains "reqListener" = true ∧
    ((createTodoCall ["reqListener"] "milk" (World.mk 0 [])).1 = none ∧
     requestsCreated (createTodoCall ["reqListener"] "milk" (World.mk 0 [])).2.xhrLog
       = requestsCreated (World.mk 0 []).xhrLog ++ [0] ∧
     sendsIssued (createTodoCall ["reqListener"] "milk" (World.mk 0 [])).2.xhrLog
       = sendsIssued (World.mk 0 []).xhrLog ++ [0] ∧
     listenersRegistered (createTodoCall ["reqListener"] "milk" (World.mk 0 [])).2.xhrLog
       = listenersRegistered (World.mk 0 []).xhrLog ++ [(0, "load")] ∧
     allListenedEvents fooJs = ["load"]) :=
  ⟨by decide,
   c3_createTodo_single_request_no_error_handling ["reqListener"] "milk"
     (World.mk 0 []) (by decide)⟩

/-- C4: the program holds no mutable state of its own — after any sequence
of createTodo calls, in any environment, getUrl returns the same value as
before, and a getUrl call leaves the world unchanged, so repeated getUrl
calls are interchangeable. -/
theorem c4_no_state_outlives_calls (env : Env) (titles : List String) (w : World) :
    (getUrlCall (runCreates env titles w)).1 = (getUrlCall w).1 ∧
    (getUrlCall w).2 = w ∧
    getUrlCall ((getUrlCall w).2) = getUrlCall w :=
  ⟨rfl, rfl, rfl⟩

/-- C5: getUrl takes no arguments beyond the ambient world, returns the
string "/todos" on every call without touching the world, and is
deterministic — two runs from any two worlds return the same value. -/
theorem c5_getUrl_pure_deterministic (w v : World) :
    getUrl = "/todos" ∧
    getUrlCall w = ("/todos", w) ∧
    (getUrlCall w).1 = (getUrlCall v).1 :=
  ⟨rfl, rfl, rfl⟩

/-- C6: whenever the call proceeds (reqListener bound), createTodo opens
exactly one request, with method "POST" and url the verbatim concatenation
of the result of getUrl, "?title=", and the title — with no URL-encoding
applied to the title. -/
theorem c6_open_post_verbatim_url (env : Env) (title : String) (w : World)
    (h : env.contains "reqListener" = true) :
    opensIssued (createTodoCall env title w).2.xhrLog
      = opensIssued w.xhrLog ++ [("POST", getUrl ++ "?title=" ++ title)] ∧
    getUrl ++ "?title=" ++ title = "/todos?title=" ++ title := by
  have hm : "reqListener" ∈ env := by simpa using h
  refine ⟨?_, rfl⟩
  simp [createTodoCall, hm, opensIssued_append, opensIssued]

/-- C6, witness: at the title "a&b#c" the issued url is the unescaped
string "/todos?title=a&b#c" — the ampersand and hash pass through. -/
theorem c6_witness :
    (["reqListener"] : Env).contains "reqListener" = true ∧
    (opensIssued (createTodoCall ["reqListener"] "a&b#c" (World.mk 0 [])).2.xhrLog
       = opensIssued (World.mk 0 []).xhrLog ++ [("POST", "/todos?title=a&b#c")] ∧
     "/todos?title=a&b#c" = "/todos?title=" ++ "a&b#c") :=
  ⟨by decide,
   c6_open_post_verbatim_url ["reqListener"] "a&b#c" (World.mk 0 []) (by decide)⟩

/-- C7: the identifier reqListener is defined nowhere in the program, and
in any environment with no binding named reqListener, createTodo raises a
ReferenceError for reqListener and issues no open and no send — no request
goes out on this error path. -/
theorem c7_reqListener_undefined_reference_error
    (env : Env) (title : String) (w : World)
    (h : env.contains "reqListener" = false) :
    "reqListener" ∉ definedNames fooJs ∧
    (createTodoCall env title w).1 = some (JsError.referenceError "reqListener") ∧
    opensIssued (createTodoCall env title w).2.xhrLog = opensIssued w.xhrLog ∧
    sendsIssued (createTodoCall env title w).2.xhrLog = sendsIssued w.xhrLog := by
  have hm : "reqListener" ∉ env := by simpa using h
  refine ⟨by decide, ?_, ?_, ?_⟩ <;>
    simp [createTodoCall, hm, opensIssued_append, sendsIssued_append,
      opensIssued, sendsIssued]

/-- C7, witness: the theorem instantiated at the empty environment, the
title "x", and the empty world. -/
theorem c7_witness :
    ([] : Env).contains "reqListener" = false ∧
    ("reqListener" ∉ definedNames fooJs ∧
     (createTodoCall [] "x" (World.mk 0 [])).1
       = some (JsError.referenceError "reqListener") ∧
     opensIssued (createTodoCall [] "x" (World.mk 0 [])).2.xhrLog
       = opensIssued (World.mk 0 []).xhrLog ∧
     sendsIssued (createTodoCall [] "x" (World.mk 0 [])).2.xhrLog
       = sendsIssued (World.mk 0 []).xhrLog) :=
  ⟨by decide, c7_reqListener_undefined_reference_error [] "x" (World.mk 0 []) (by decide)⟩
